import Mathlib

/-!
Verification development for a GCS-backed MCP server
(`src/gcs_mcp_server/__main__.py`, authenticated variant, plus `main.py`).

The Python source is shallowly embedded: the authentication decorator
becomes `resolveAuth`/`wrapTool`, the per-user path sandbox becomes
`toStorage`/`toCaller`, and each tool handler becomes a pure function over
an explicit object-store state `GcsState`, returning its result string (or
`Except` for the raising handler) together with the updated state and the
trace of object-store calls it issued.
-/

namespace GcsMcp

/-- Identity record produced by the auth layer (`AuthInfo` dataclass). -/
structure AuthInfo where
  user_id : String
  role : String
deriving DecidableEq, Repr

/-- Wraps a string in single quotes, as the Python f-strings
`f"... '{x}' ..."` do. -/
def q (s : String) : String := "\x27" ++ s ++ "\x27"

/-- Python `str.removeprefix`: drop `pre` from the front of `s` when it is
a prefix, otherwise return `s` unchanged. -/
def removePre (pre s : String) : String :=
  if pre.data.isPrefixOf s.data then String.mk (s.data.drop pre.data.length) else s

/-- Python `str.startswith`, computed on the character lists so that closed
instances reduce in the kernel. -/
def startsWithB (pre s : String) : Bool := pre.data.isPrefixOf s.data

/-- Python `str.endswith`, computed on the character lists. -/
def endsWithB (suf s : String) : Bool := suf.data.isSuffixOf s.data

/-- Python `str.split(sep)` with a one-character separator: splits into
segments, keeping empty segments, never returning an empty list. -/
def splitList (sep : Char) : List Char → List (List Char)
  | [] => [[]]
  | c :: rest =>
    match splitList sep rest with
    | [] => [[]]
    | seg :: segs => if c = sep then [] :: seg :: segs else (c :: seg) :: segs

/-- Path Sandbox, storage direction: `final_path = f"{auth_info.user_id}/{path}"`. -/
def toStorage (id : AuthInfo) (p : String) : String :=
  id.user_id ++ "/" ++ p

/-- Path Sandbox, caller direction: `name.removeprefix(f"{user_id}/")`. -/
def toCaller (id : AuthInfo) (s : String) : String :=
  removePre (id.user_id ++ "/") s

/-- Sandboxing as the handlers perform it: prefix with the user id when an
identity is present, otherwise pass the caller path through unchanged. -/
def sandbox (auth : Option AuthInfo) (p : String) : String :=
  match auth with
  | some a => toStorage a p
  | none => p

/-- The strip string the list handler computes:
`strip_prefix = f"{auth_info.user_id}/" if auth_info else ""`. -/
def stripOf (auth : Option AuthInfo) : String :=
  match auth with
  | some a => a.user_id ++ "/"
  | none => ""

/-- A gateway (or mocked) token-validation response: HTTP status plus the
JSON fields the wrapper reads. -/
structure GatewayResponse where
  status : Nat
  user_id : Option String
  role : Option String
  error : Option String
deriving DecidableEq, Repr

/-- The hardcoded responses in the wrapper (comment in the source:
"Mocked response for demonstration"). No network request is made. -/
def mockGatewayResponse (token : String) : GatewayResponse :=
  if token = "TEST_TOKEN_ADMIN" then
    { status := 200, user_id := some "user-123-admin", role := some "agent-admin", error := none }
  else if token = "TEST_TOKEN_USER" then
    { status := 200, user_id := some "user-456-basic", role := some "agent", error := none }
  else
    { status := 401, user_id := none, role := none, error := some "Invalid token" }

/-- Outcome of the authentication wrapper before the tool body runs:
either proceed (possibly anonymously) or return a rejection string. -/
inductive AuthResult where
  | ok (info : Option AuthInfo)
  | reject (msg : String)
deriving DecidableEq, Repr

/-- Python truthiness of the `Authorization` header value: `None` and the
empty string are falsy. -/
def headerTruthy : Option String → Bool
  | none => false
  | some s => s != ""

/-- Mapping of a token-validation response to an auth outcome, exactly as
the wrapper's inner block does: status 200 yields an identity from the
`user_id`/`role` fields, anything else yields the "Authentication failed"
rejection carrying the response's `error` field (default "Unknown error"). -/
def gatewayAuthCode (token : String) : AuthResult :=
  let resp := mockGatewayResponse token
  if resp.status = 200 then
    AuthResult.ok (some { user_id := resp.user_id.getD "", role := resp.role.getD "" })
  else
    AuthResult.reject ("Authentication failed: " ++ resp.error.getD "Unknown error")

/-- Modelled from the spec: the Auth Resolver as specified actually sends
the token to the configured gateway and maps its response; `gw` is the
gateway's behavior, `none` standing for a network failure reaching it.
HTTP 200 yields an Identity, non-200 yields AuthenticationFailed with the
gateway-reported reason, network failure yields GatewayUnreachable. -/
def gatewayAuthSpec (gw : String → Option GatewayResponse) (token : String) : AuthResult :=
  match gw token with
  | none => AuthResult.reject "GatewayUnreachable"
  | some resp =>
    if resp.status = 200 then
      AuthResult.ok (some { user_id := resp.user_id.getD "", role := resp.role.getD "" })
    else
      AuthResult.reject ("AuthenticationFailed: " ++ resp.error.getD "")

/-- The rejection string for a malformed `Authorization` header. -/
def invalidHeaderMsg : String :=
  "Invalid Authorization header format. Must be " ++ q "Bearer <token>" ++ "."

/-- The authentication wrapper (`authenticated_tool.wrapper`) up to the
point where it calls the wrapped tool. `gatewayConfigured` is the
truthiness of `AUTH_GATEWAY_URL`; `suppliedAuth` is `kwargs.get("auth_info")`;
`request` is `none` when no positional request object was provided, and
`some h` carries the request's `Authorization` header (itself optional). -/
def resolveAuth (gatewayConfigured : Bool) (suppliedAuth : Option AuthInfo)
    (request : Option (Option String)) : AuthResult :=
  match suppliedAuth with
  | some a => AuthResult.ok (some a)
  | none =>
    match request with
    | none => AuthResult.reject "Error: Request object not provided."
    | some authHeader =>
      if gatewayConfigured && headerTruthy authHeader then
        let h := authHeader.getD ""
        if startsWithB "Bearer " h then
          gatewayAuthCode (String.mk ((splitList ' ' h.data).getD 1 []))
        else
          AuthResult.reject invalidHeaderMsg
      else
        AuthResult.ok none

/-- The full wrapper around a string-returning tool body: resolve
authentication, then either run the body with the resolved identity or
return the rejection string without running it. -/
def wrapTool (gatewayConfigured : Bool) (suppliedAuth : Option AuthInfo)
    (request : Option (Option String)) (op : Option AuthInfo → String) : String :=
  match resolveAuth gatewayConfigured suppliedAuth request with
  | AuthResult.ok a => op a
  | AuthResult.reject m => m

/-! ## Base64 (the `base64` standard-library collaborator) -/

/-- Character of the standard base64 alphabet at index `n < 64`. -/
def b64Char (n : Nat) : Char :=
  if n < 26 then Char.ofNat (65 + n)
  else if n < 52 then Char.ofNat (97 + (n - 26))
  else if n < 62 then Char.ofNat (48 + (n - 52))
  else if n = 62 then '+'
  else '/'

/-- Standard base64 encoding of a byte sequence (`base64.b64encode`). -/
def b64encode : List Nat → List Char
  | [] => []
  | [a] => [b64Char (a / 4), b64Char (a % 4 * 16), '=', '=']
  | [a, b] => [b64Char (a / 4), b64Char (a % 4 * 16 + b / 16), b64Char (b % 16 * 4), '=']
  | a :: b :: c :: rest =>
    b64Char (a / 4) :: b64Char (a % 4 * 16 + b / 16) ::
      b64Char (b % 16 * 4 + c / 64) :: b64Char (c % 64) :: b64encode rest

/-- Base64 encoding as the string the handler returns
(`base64.b64encode(content).decode('utf-8')`). -/
def b64Str (bytes : List Nat) : String := String.mk (b64encode bytes)

/-- Value of a base64 alphabet character, `none` for non-alphabet input. -/
def b64Val (c : Char) : Option Nat :=
  if 65 ≤ c.toNat ∧ c.toNat ≤ 90 then some (c.toNat - 65)
  else if 97 ≤ c.toNat ∧ c.toNat ≤ 122 then some (c.toNat - 97 + 26)
  else if 48 ≤ c.toNat ∧ c.toNat ≤ 57 then some (c.toNat - 48 + 52)
  else if c = '+' then some 62
  else if c = '/' then some 63
  else none

/-- Decode base64 four characters at a time, honouring `=` padding in the
final group; `none` models `binascii.Error`. -/
def b64Groups : List Char → Option (List Nat)
  | [] => some []
  | a :: b :: c :: d :: rest => do
    let va ← b64Val a
    let vb ← b64Val b
    if c = '=' ∧ d = '=' ∧ rest = [] then
      some [va * 4 + vb / 16]
    else do
      let vc ← b64Val c
      if d = '=' ∧ rest = [] then
        some [va * 4 + vb / 16, vb % 16 * 16 + vc / 4]
      else do
        let vd ← b64Val d
        let tail ← b64Groups rest
        some ((va * 4 + vb / 16) :: (vb % 16 * 16 + vc / 4) :: (vc % 4 * 64 + vd) :: tail)
  | _ => none

/-- Python `base64.b64decode` (default `validate=False`): discard
characters outside the alphabet and padding, then decode; `none` models a
raised `binascii.Error`. -/
def b64decode (cs : List Char) : Option (List Nat) :=
  b64Groups (cs.filter (fun c => (b64Val c).isSome || c = '='))

/-! ## Object-store model (the GCS collaborator) -/

/-- Objects of one bucket: name-to-bytes association list. -/
abbrev ObjMap := List (String × List Nat)

/-- The object store: bucket-name-to-objects association list. -/
abbrev GcsState := List (String × ObjMap)

/-- One call into the object-store SDK, recorded so theorems can speak
about which calls a handler issued and in which order. -/
inductive StoreOp where
  | getBucket (b : String)
  | createBucket (b : String)
  | deleteBucket (b : String) (force : Bool)
  | uploadBlob (b o : String)
  | existsBlob (b o : String)
  | downloadBlob (b o : String)
  | deleteBlob (b o : String)
  | copyBlob (srcB srcO dstB dstO : String)
  | listBlobs (b pre : String)
deriving DecidableEq, Repr

/-- Look a bucket up by name (`storage_client.get_bucket`; `none` models a
raised `NotFound`). -/
def lookupBucket (st : GcsState) (b : String) : Option ObjMap :=
  (st.find? (fun x => x.1 == b)).map (·.2)

/-- Replace the contents of bucket `b` in the state. -/
def setBucket (st : GcsState) (b : String) (m : ObjMap) : GcsState :=
  st.map (fun x => if x.1 == b then (x.1, m) else x)

/-- Look an object up by name inside a bucket (`blob.exists()` /
`blob.download_as_bytes()`). -/
def lookupObj (m : ObjMap) (o : String) : Option (List Nat) :=
  (m.find? (fun x => x.1 == o)).map (·.2)

/-- Write (insert or overwrite) an object (`blob.upload_from_string`). -/
def setObj (m : ObjMap) (o : String) (d : List Nat) : ObjMap :=
  match lookupObj m o with
  | some _ => m.map (fun x => if x.1 == o then (x.1, d) else x)
  | none => m ++ [(o, d)]

/-- Remove an object by name (`blob.delete()`). -/
def removeObj (m : ObjMap) (o : String) : ObjMap :=
  m.filter (fun x => x.1 != o)

/-- Object content at a (bucket, object-name) address, `none` when the
bucket or the object is absent. -/
def objectAt (st : GcsState) (b o : String) : Option (List Nat) :=
  (lookupBucket st b).bind (fun m => lookupObj m o)

/-- State after writing object `o` in bucket `b` (no-op when the bucket is
absent; handlers only call it after a successful bucket lookup). -/
def storeUpload (st : GcsState) (b o : String) (d : List Nat) : GcsState :=
  match lookupBucket st b with
  | none => st
  | some m => setBucket st b (setObj m o d)

/-- State after deleting object `o` from bucket `b`. -/
def storeDelete (st : GcsState) (b o : String) : GcsState :=
  match lookupBucket st b with
  | none => st
  | some m => setBucket st b (removeObj m o)

/-- Duplicate removal keeping the first occurrence, skipping entries
already in `seen`. -/
def dedupAux (seen : List String) : List String → List String
  | [] => []
  | x :: xs => if seen.contains x then dedupAux seen xs else x :: dedupAux (x :: seen) xs

/-- Duplicate removal keeping the first occurrence, for the `prefixes` set
of a delimiter listing. -/
def dedupFirst (l : List String) : List String := dedupAux [] l

/-- GCS `list_blobs(prefix=pre, delimiter="/")` over the names in a
bucket: the blobs whose names extend `pre` with no further `/`, and the
one-level subdirectory `prefixes` for names that do contain a further `/`. -/
def gcsList (objs : List String) (pre : String) : List String × List String :=
  let matching := objs.filter (fun n => startsWithB pre n)
  let blobNames := matching.filter (fun n => !((n.data.drop pre.data.length).contains '/'))
  let subdirs := dedupFirst (matching.filterMap (fun n =>
    let rest := n.data.drop pre.data.length
    if rest.contains '/' then
      some (pre ++ String.mk (rest.takeWhile (fun c => c != '/')) ++ "/")
    else none))
  (blobNames, subdirs)

/-! ## Tool handlers -/

/-- Role check used by the two admin tools:
`if not auth_info or auth_info.role != "agent-admin"`. -/
def isAdmin (auth : Option AuthInfo) : Bool :=
  match auth with
  | some a => a.role == "agent-admin"
  | none => false

/-- The rejection string of the admin-only tools. -/
def adminDeniedMsg : String :=
  "Error: This operation requires " ++ q "agent-admin" ++ " role."

/-- Stand-in for `str(e)` of the `NotFound` raised by `get_bucket`. -/
def bucketNotFoundStr (bucket_name : String) : String :=
  "404 GET: bucket " ++ bucket_name ++ " not found"

/-- Handler `upload_file`: sandbox the path, fetch the bucket, decode the
base64 payload, write the blob; errors become descriptive strings. -/
def upload_file (auth : Option AuthInfo) (bucket_name path : String)
    (content : List Char) (st : GcsState) : String × GcsState × List StoreOp :=
  let final_path := sandbox auth path
  match lookupBucket st bucket_name with
  | none =>
    ("Error: Bucket " ++ q bucket_name ++ " not found.", st, [StoreOp.getBucket bucket_name])
  | some m =>
    match b64decode content with
    | none =>
      ("An error occurred: Invalid base64-encoded string", st, [StoreOp.getBucket bucket_name])
    | some bytes =>
      ("File " ++ q path ++ " successfully uploaded to bucket " ++ q bucket_name ++ ".",
       setBucket st bucket_name (setObj m final_path bytes),
       [StoreOp.getBucket bucket_name, StoreOp.uploadBlob bucket_name final_path])

/-- Handler `create_bucket`: admin-only; `Conflict` on an existing name
becomes the benign "already exists" string. -/
def create_bucket (auth : Option AuthInfo) (bucket_name : String) (st : GcsState) :
    String × GcsState × List StoreOp :=
  if !(isAdmin auth) then
    (adminDeniedMsg, st, [])
  else
    match lookupBucket st bucket_name with
    | some _ =>
      ("Bucket " ++ q bucket_name ++ " already exists.", st, [StoreOp.createBucket bucket_name])
    | none =>
      ("Successfully created bucket " ++ q bucket_name ++ ".",
       st ++ [(bucket_name, [])], [StoreOp.createBucket bucket_name])

/-- Error value of the raising handler `read_gcs_file`: either the
`NotFound` re-raised from `get_bucket`, or the `FileNotFoundError` the
handler itself raises (and re-raises) with its message. -/
inductive ReadErr where
  | bucketNotFound (bucket_name : String)
  | fileNotFound (msg : String)
deriving DecidableEq, Repr

/-- Handler `read_gcs_file`: unlike every other handler it signals failure
by raising (`Except.error`); success is the base64-encoded content. -/
def read_gcs_file (auth : Option AuthInfo) (bucket_name path : String)
    (st : GcsState) : Except ReadErr String :=
  let final_path := sandbox auth path
  match lookupBucket st bucket_name with
  | none => Except.error (ReadErr.bucketNotFound bucket_name)
  | some m =>
    match lookupObj m final_path with
    | some bytes => Except.ok (b64Str bytes)
    | none =>
      Except.error (ReadErr.fileNotFound
        ("File " ++ q path ++ " not found in bucket " ++ q bucket_name ++ "."))

/-- Shape of the value handed to `json.dumps` by `list_gcs_objects`:
either the list of names, or the `{"error": ...}` dictionary. -/
inductive Json where
  | arr (items : List String)
  | obj (fields : List (String × String))
deriving DecidableEq, Repr

/-- Handler `list_gcs_objects`: sandbox the path, normalize it into a
directory prefix, run a one-level delimiter listing, drop the entry whose
name equals the prefix, strip the sandbox prefix from every entry. -/
def list_gcs_objects (auth : Option AuthInfo) (bucket_name path : String)
    (st : GcsState) : Json :=
  let final_path := sandbox auth path
  match lookupBucket st bucket_name with
  | none => Json.obj [("error", bucketNotFoundStr bucket_name)]
  | some m =>
    let pre := if final_path != "" && !(endsWithB "/" final_path) then final_path ++ "/" else final_path
    let listed := gcsList (m.map (·.1)) pre
    let strip := stripOf auth
    let items := listed.1.foldl
      (fun acc n => if n = pre then acc else acc ++ [removePre strip n]) []
    let items := listed.2.foldl (fun acc p => acc ++ [removePre strip p]) items
    Json.arr items

/-- Handler `delete_gcs_object`: a path ending in `/` deletes every object
under that prefix (empty match is the benign "already empty" string); a
plain path deletes one object after an existence check. -/
def delete_gcs_object (auth : Option AuthInfo) (bucket_name path : String)
    (st : GcsState) : String × GcsState × List StoreOp :=
  let final_path := sandbox auth path
  match lookupBucket st bucket_name with
  | none =>
    ("Error: Bucket " ++ q bucket_name ++ " not found.", st, [StoreOp.getBucket bucket_name])
  | some m =>
    if endsWithB "/" final_path then
      let toDelete := (m.map (·.1)).filter (fun n => startsWithB final_path n)
      if toDelete = [] then
        ("Directory " ++ q path ++ " is already empty or does not exist.", st,
         [StoreOp.getBucket bucket_name, StoreOp.listBlobs bucket_name final_path])
      else
        ("Successfully deleted directory " ++ q path ++ " and its contents.",
         setBucket st bucket_name (m.filter (fun x => !(startsWithB final_path x.1))),
         [StoreOp.getBucket bucket_name, StoreOp.listBlobs bucket_name final_path] ++
           toDelete.map (fun n => StoreOp.deleteBlob bucket_name n))
    else
      match lookupObj m final_path with
      | none =>
        ("Error: File " ++ q path ++ " not found in bucket " ++ q bucket_name ++ ".", st,
         [StoreOp.getBucket bucket_name, StoreOp.existsBlob bucket_name final_path])
      | some _ =>
        ("File " ++ q path ++ " successfully deleted.",
         setBucket st bucket_name (removeObj m final_path),
         [StoreOp.getBucket bucket_name, StoreOp.existsBlob bucket_name final_path,
          StoreOp.deleteBlob bucket_name final_path])

/-- Python `os.path.basename` on POSIX paths: the segment after the last
separator (empty when the path ends in `/`). -/
def basename (p : String) : String :=
  String.mk ((splitList '/' p.data).getLastD [])

/-- Handler `move_gcs_object`: sandbox both paths, check the source blob,
fetch the destination bucket, append the source base name when the caller
destination path is directory-style, then copy and finally delete the
source — in that order, with no rollback. -/
def move_gcs_object (auth : Option AuthInfo)
    (source_bucket_name source_path dest_bucket_name dest_path : String)
    (st : GcsState) : String × GcsState × List StoreOp :=
  let final_source_path := sandbox auth source_path
  match lookupBucket st source_bucket_name with
  | none =>
    ("Error: One of the buckets was not found.", st, [StoreOp.getBucket source_bucket_name])
  | some sm =>
    match lookupObj sm final_source_path with
    | none =>
      ("Error: Source file " ++ q source_path ++ " not found.", st,
       [StoreOp.getBucket source_bucket_name, StoreOp.existsBlob source_bucket_name final_source_path])
    | some bytes =>
      match lookupBucket st dest_bucket_name with
      | none =>
        ("Error: One of the buckets was not found.", st,
         [StoreOp.getBucket source_bucket_name,
          StoreOp.existsBlob source_bucket_name final_source_path,
          StoreOp.getBucket dest_bucket_name])
      | some _ =>
        let final_dest_path :=
          if endsWithB "/" dest_path then sandbox auth dest_path ++ basename source_path
          else sandbox auth dest_path
        let st1 := storeUpload st dest_bucket_name final_dest_path bytes
        let st2 := storeDelete st1 source_bucket_name final_source_path
        ("Successfully moved " ++ q source_path ++ " to " ++ q dest_path ++ ".", st2,
         [StoreOp.getBucket source_bucket_name,
          StoreOp.existsBlob source_bucket_name final_source_path,
          StoreOp.getBucket dest_bucket_name,
          StoreOp.copyBlob source_bucket_name final_source_path dest_bucket_name final_dest_path,
          StoreOp.deleteBlob source_bucket_name final_source_path])

/-- Handler `delete_bucket`: admin-only; deleting a non-empty bucket
without `force` raises, which the catch-all turns into a string. -/
def delete_bucket (auth : Option AuthInfo) (bucket_name : String) (force : Bool)
    (st : GcsState) : String × GcsState × List StoreOp :=
  if !(isAdmin auth) then
    (adminDeniedMsg, st, [])
  else
    match lookupBucket st bucket_name with
    | none =>
      ("Error: Bucket " ++ q bucket_name ++ " not found.", st, [StoreOp.getBucket bucket_name])
    | some m =>
      if !force && m != [] then
        ("An error occurred: The bucket you tried to delete is not empty.", st,
         [StoreOp.getBucket bucket_name, StoreOp.deleteBucket bucket_name force])
      else
        ("Bucket " ++ q bucket_name ++ " has been deleted.",
         st.filter (fun x => x.1 != bucket_name),
         [StoreOp.getBucket bucket_name, StoreOp.deleteBucket bucket_name force])

/-! ## Fault-carrying store model

The handlers end in `except NotFound: ...` and
`except Exception as e: return f"An error occurred: {e}"` (source lines
125-128, 218-221, 248-251), and `read_gcs_file` re-raises every exception
(lines 161-162). A store SDK call can therefore surface its own exception
text to the caller verbatim. The definitions below extend the handlers
with that behavior: `StoreFaults` gives the collaborator's raising
behavior per call, and the `...F` variants compute the caller-visible
result string under it (their state effect is that of the handlers
above and plays no role in the result-string claims). -/

/-- Class of a raised store exception: the `NotFound` family the handlers
intercept with `except NotFound`, or any other exception, which only the
catch-all `except Exception` (or a re-raise) handles. -/
inductive ExcKind where
  | notFound
  | generic
deriving DecidableEq, Repr

/-- An exception raised by a store SDK call: its class and its text
`str(e)`. The repository places no constraint on this text; real GCS API
error strings embed the request URL and spell the storage object name —
hence possibly the sandboxed path. -/
structure StoreExc where
  kind : ExcKind
  msg : String
deriving DecidableEq, Repr

/-- Exception behavior of the store collaborator: which SDK calls raise
and with what exception; `none` means the call succeeds as modelled by
`GcsState`. -/
abbrev StoreFaults := StoreOp → Option StoreExc

/-- The first raising call of a sequence, as the Python loop hits it. -/
def firstFault (fault : StoreFaults) : List StoreOp → Option StoreExc
  | [] => none
  | op :: ops =>
    match fault op with
    | some e => some e
    | none => firstFault fault ops

/-- What the `except` clauses of `upload_file` and `delete_gcs_object`
make of a raised exception: `except NotFound` yields the bucket message,
the catch-all interpolates `str(e)` verbatim. -/
def bucketExcMsg (bucket_name : String) (e : StoreExc) : String :=
  match e.kind with
  | ExcKind.notFound => "Error: Bucket " ++ q bucket_name ++ " not found."
  | ExcKind.generic => "An error occurred: " ++ e.msg

/-- What the `except` clauses of `move_gcs_object` make of a raised
exception. -/
def moveExcMsg (e : StoreExc) : String :=
  match e.kind with
  | ExcKind.notFound => "Error: One of the buckets was not found."
  | ExcKind.generic => "An error occurred: " ++ e.msg

/-- Result string of `upload_file` under a store that may raise: the
handler above extended with its `except NotFound` / `except Exception`
branches, the raised text taken from `fault`. -/
def upload_fileF (fault : StoreFaults) (auth : Option AuthInfo)
    (bucket_name path : String) (content : List Char) (st : GcsState) : String :=
  let final_path := sandbox auth path
  match fault (StoreOp.getBucket bucket_name) with
  | some e => bucketExcMsg bucket_name e
  | none =>
    match lookupBucket st bucket_name with
    | none => "Error: Bucket " ++ q bucket_name ++ " not found."
    | some _ =>
      match b64decode content with
      | none => "An error occurred: Invalid base64-encoded string"
      | some _ =>
        match fault (StoreOp.uploadBlob bucket_name final_path) with
        | some e => bucketExcMsg bucket_name e
        | none =>
          "File " ++ q path ++ " successfully uploaded to bucket " ++ q bucket_name ++ "."

/-- Error value of `read_gcs_file` under a store that may raise: the
handler's own two errors plus the verbatim re-raise of any store
exception (`except Exception as e: raise e`). -/
inductive ReadRaise where
  | bucketNotFound (bucket_name : String)
  | fileNotFound (msg : String)
  | storeRaised (msg : String)
deriving DecidableEq, Repr

/-- `read_gcs_file` under a store that may raise: every store exception —
from the bucket fetch, the existence check or the download — is re-raised
unaltered to the caller. -/
def read_gcs_fileF (fault : StoreFaults) (auth : Option AuthInfo)
    (bucket_name path : String) (st : GcsState) : Except ReadRaise String :=
  let final_path := sandbox auth path
  match fault (StoreOp.getBucket bucket_name) with
  | some e => Except.error (ReadRaise.storeRaised e.msg)
  | none =>
    match lookupBucket st bucket_name with
    | none => Except.error (ReadRaise.bucketNotFound bucket_name)
    | some m =>
      match fault (StoreOp.existsBlob bucket_name final_path) with
      | some e => Except.error (ReadRaise.storeRaised e.msg)
      | none =>
        match lookupObj m final_path with
        | none =>
          Except.error (ReadRaise.fileNotFound
            ("File " ++ q path ++ " not found in bucket " ++ q bucket_name ++ "."))
        | some bytes =>
          match fault (StoreOp.downloadBlob bucket_name final_path) with
          | some e => Except.error (ReadRaise.storeRaised e.msg)
          | none => Except.ok (b64Str bytes)

/-- Result string of `delete_gcs_object` under a store that may raise:
any `NotFound` raised inside the try block yields the bucket message, any
other exception the catch-all interpolation. -/
def delete_gcs_objectF (fault : StoreFaults) (auth : Option AuthInfo)
    (bucket_name path : String) (st : GcsState) : String :=
  let final_path := sandbox auth path
  match fault (StoreOp.getBucket bucket_name) with
  | some e => bucketExcMsg bucket_name e
  | none =>
    match lookupBucket st bucket_name with
    | none => "Error: Bucket " ++ q bucket_name ++ " not found."
    | some m =>
      if endsWithB "/" final_path then
        match fault (StoreOp.listBlobs bucket_name final_path) with
        | some e => bucketExcMsg bucket_name e
        | none =>
          let toDelete := (m.map (·.1)).filter (fun n => startsWithB final_path n)
          if toDelete = [] then
            "Directory " ++ q path ++ " is already empty or does not exist."
          else
            match firstFault fault (toDelete.map (fun n => StoreOp.deleteBlob bucket_name n)) with
            | some e => bucketExcMsg bucket_name e
            | none => "Successfully deleted directory " ++ q path ++ " and its contents."
      else
        match fault (StoreOp.existsBlob bucket_name final_path) with
        | some e => bucketExcMsg bucket_name e
        | none =>
          match lookupObj m final_path with
          | none => "Error: File " ++ q path ++ " not found in bucket " ++ q bucket_name ++ "."
          | some _ =>
            match fault (StoreOp.deleteBlob bucket_name final_path) with
            | some e => bucketExcMsg bucket_name e
            | none => "File " ++ q path ++ " successfully deleted."

/-- Result string of `move_gcs_object` under a store that may raise. -/
def move_gcs_objectF (fault : StoreFaults) (auth : Option AuthInfo)
    (source_bucket_name source_path dest_bucket_name dest_path : String)
    (st : GcsState) : String :=
  let final_source_path := sandbox auth source_path
  match fault (StoreOp.getBucket source_bucket_name) with
  | some e => moveExcMsg e
  | none =>
    match lookupBucket st source_bucket_name with
    | none => "Error: One of the buckets was not found."
    | some sm =>
      match fault (StoreOp.existsBlob source_bucket_name final_source_path) with
      | some e => moveExcMsg e
      | none =>
        match lookupObj sm final_source_path with
        | none => "Error: Source file " ++ q source_path ++ " not found."
        | some _ =>
          match fault (StoreOp.getBucket dest_bucket_name) with
          | some e => moveExcMsg e
          | none =>
            match lookupBucket st dest_bucket_name with
            | none => "Error: One of the buckets was not found."
            | some _ =>
              let final_dest_path :=
                if endsWithB "/" dest_path then sandbox auth dest_path ++ basename source_path
                else sandbox auth dest_path
              match fault (StoreOp.copyBlob source_bucket_name final_source_path
                  dest_bucket_name final_dest_path) with
              | some e => moveExcMsg e
              | none =>
                match fault (StoreOp.deleteBlob source_bucket_name final_source_path) with
                | some e => moveExcMsg e
                | none =>
                  "Successfully moved " ++ q source_path ++ " to " ++ q dest_path ++ "."

/-- Substring test: `needle` occurs contiguously in `hay`. -/
def containsSub (needle hay : String) : Bool :=
  (List.range (hay.data.length + 1)).any (fun i => needle.data.isPrefixOf (hay.data.drop i))

/-- The GCS API error text raised when downloading an object that has just
vanished: the error body spells the full storage object name, sandbox
prefix included (`No such object: <bucket>/<storage path>`). -/
def demoNotFoundMsg : String :=
  "404 GET https://storage.googleapis.com/download/storage/v1/b/b/o/u%2Ff.txt?alt=media: No such object: b/u/f.txt"

/-- A store behavior in which downloading `u/f.txt` from bucket `b`
raises `NotFound` with the API message (the object was deleted between
the `exists()` check and the download). -/
def demoFault : StoreFaults := fun op =>
  if op = StoreOp.downloadBlob "b" "u/f.txt" then
    some { kind := ExcKind.notFound, msg := demoNotFoundMsg }
  else none

/-! ## Claims -/

/-- C4: the path-sandbox round trip is the identity — for every identity
`id` and every relative path `p`, stripping the sandbox prefix from the
sandboxed path returns the original path:
`toCaller id (toStorage id p) = p`. (Proved for all `p`, which subsumes
the claim's restriction to paths not already containing the prefix.) -/
theorem c4_sandbox_round_trip (id : AuthInfo) (p : String) :
    toCaller id (toStorage id p) = p := by
  unfold toCaller toStorage removePre
  rw [String.data_append (id.user_id ++ "/") p]
  have hpre : (id.user_id ++ "/").data.isPrefixOf ((id.user_id ++ "/").data ++ p.data) = true :=
    List.isPrefixOf_iff_prefix.mpr (List.prefix_append _ _)
  rw [if_pos hpre, List.drop_left]

/-- C1 counterexample: in anonymous mode (no identity) `create_bucket` is
rejected with the permission-denied string, so it is not the case that no
operation is rejected for lack of an identity or role. -/
theorem c1_counterexample :
    create_bucket none "demo-bucket" [] = (adminDeniedMsg, [], []) ∧
    adminDeniedMsg = "Error: This operation requires \x27agent-admin\x27 role." :=
  ⟨rfl, rfl⟩

/-- C1 (amended): when no gateway is configured, every tool call proceeds
to its handler with no identity and no sandbox prefix, and the wrapped
operation always runs; however the admin-gated handlers (`create_bucket`,
`delete_bucket`) still return a permission-denied result without touching
the object store, because their role check requires an `agent-admin`
identity. -/
theorem c1_anonymous_mode (h : Option String) (op : Option AuthInfo → String)
    (p bn : String) (force : Bool) (st : GcsState) :
    resolveAuth false none (some h) = AuthResult.ok none ∧
    wrapTool false none (some h) op = op none ∧
    sandbox none p = p ∧
    create_bucket none bn st = (adminDeniedMsg, st, []) ∧
    delete_bucket none bn force st = (adminDeniedMsg, st, []) := by
  refine ⟨?_, ?_, rfl, rfl, rfl⟩ <;> simp [resolveAuth, wrapTool]

/-- C2 counterexample: with a gateway configured and the `Authorization`
header absent, resolution does not fail — it yields anonymous access and
the wrapped operation is executed (here an `upload_file` body that reports
a missing bucket), contradicting the claimed invalid-auth-header
rejection. -/
theorem c2_counterexample :
    resolveAuth true none (some none) = AuthResult.ok none ∧
    wrapTool true none (some none) (fun a => (upload_file a "b" "f.txt" [] []).1) =
      "Error: Bucket " ++ q "b" ++ " not found." ∧
    AuthResult.ok (none : Option AuthInfo) ≠ AuthResult.reject invalidHeaderMsg := by
  refine ⟨rfl, rfl, by decide⟩

/-- C2 (amended): when no pre-resolved identity is supplied and a gateway
is configured, a present non-empty `Authorization` header that is not of
the form `Bearer <token>` is rejected with the invalid-header message and
the wrapped operation is not executed; an absent header instead leads to
anonymous execution, as does any header when no gateway is configured. -/
theorem c2_header_format (h : String) (op : Option AuthInfo → String)
    (hne : h ≠ "") (hb : startsWithB "Bearer " h = false) :
    resolveAuth true none (some (some h)) = AuthResult.reject invalidHeaderMsg ∧
    wrapTool true none (some (some h)) op = invalidHeaderMsg ∧
    resolveAuth true none (some none) = AuthResult.ok none ∧
    resolveAuth false none (some (some h)) = AuthResult.ok none := by
  have ht : headerTruthy (some h) = true := by simp [headerTruthy, hne]
  refine ⟨?_, ?_, rfl, ?_⟩
  · simp [resolveAuth, ht, hb]
  · simp [wrapTool, resolveAuth, ht, hb]
  · simp [resolveAuth]

/-- C2 witness: the amended behavior at the concrete header `Basic xyz`. -/
theorem c2_header_format_witness :
    resolveAuth true none (some (some "Basic xyz")) = AuthResult.reject invalidHeaderMsg ∧
    wrapTool true none (some (some "Basic xyz")) (fun _ => "ran") = invalidHeaderMsg ∧
    resolveAuth true none (some none) = AuthResult.ok none ∧
    resolveAuth false none (some (some "Basic xyz")) = AuthResult.ok none :=
  c2_header_format "Basic xyz" (fun _ => "ran") (by decide) (by decide)

/-- A gateway behavior that reports HTTP 200 with identity fields for
every token; used to exhibit that the wrapper ignores the gateway. -/
def acceptAllGateway : String → Option GatewayResponse :=
  fun _ => some { status := 200, user_id := some "u", role := some "agent", error := none }

/-- C3 counterexample: for the token `sometoken`, a gateway that answers
HTTP 200 with `user_id`/`role` would, per the claim, yield an Identity;
the code instead answers from its hardcoded mock and rejects the token,
so no gateway response is consulted. -/
theorem c3_counterexample :
    gatewayAuthSpec acceptAllGateway "sometoken" =
      AuthResult.ok (some { user_id := "u", role := "agent" }) ∧
    gatewayAuthCode "sometoken" = AuthResult.reject "Authentication failed: Invalid token" ∧
    resolveAuth true none (some (some "Bearer sometoken")) =
      AuthResult.reject "Authentication failed: Invalid token" :=
  ⟨rfl, rfl, rfl⟩

/-- C3 (amended): the wrapper never contacts the configured gateway; it
computes the response from a hardcoded mock keyed on the token —
`TEST_TOKEN_ADMIN` maps to HTTP 200 with identity
(`user-123-admin`, `agent-admin`), `TEST_TOKEN_USER` to HTTP 200 with
(`user-456-basic`, `agent`), and any other token to HTTP 401 with reason
`Invalid token`; a 200 mock response yields the Identity with those
fields, and a non-200 yields the authentication-failed rejection carrying
the mock-reported reason. -/
theorem c3_mock_gateway (t : String)
    (ha : t ≠ "TEST_TOKEN_ADMIN") (hu : t ≠ "TEST_TOKEN_USER") :
    gatewayAuthCode "TEST_TOKEN_ADMIN" =
      AuthResult.ok (some { user_id := "user-123-admin", role := "agent-admin" }) ∧
    gatewayAuthCode "TEST_TOKEN_USER" =
      AuthResult.ok (some { user_id := "user-456-basic", role := "agent" }) ∧
    (mockGatewayResponse t).status = 401 ∧
    gatewayAuthCode t = AuthResult.reject "Authentication failed: Invalid token" := by
  refine ⟨rfl, rfl, ?_, ?_⟩ <;> simp [gatewayAuthCode, mockGatewayResponse, ha, hu]

/-- C3 witness: the amended behavior at the concrete token `zzz`. -/
theorem c3_mock_gateway_witness :
    gatewayAuthCode "zzz" = AuthResult.reject "Authentication failed: Invalid token" :=
  (c3_mock_gateway "zzz" (by decide) (by decide)).2.2.2

/-- C5: `create_bucket` and `delete_bucket` return the permission-denied
result — with the state unchanged and no object-store call — whenever the
resolved identity's role is not `agent-admin` (including no identity at
all); with an `agent-admin` identity they proceed to the store call and
succeed on a successful store response. -/
theorem c5_admin_role_check (auth : Option AuthInfo) (bn : String) (force : Bool)
    (st : GcsState) :
    (isAdmin auth = false →
      create_bucket auth bn st = (adminDeniedMsg, st, []) ∧
      delete_bucket auth bn force st = (adminDeniedMsg, st, [])) ∧
    (isAdmin auth = true →
      (lookupBucket st bn = none →
        create_bucket auth bn st =
          ("Successfully created bucket " ++ q bn ++ ".", st ++ [(bn, [])],
           [StoreOp.createBucket bn])) ∧
      (∀ m, lookupBucket st bn = some m → (force = true ∨ m = []) →
        (delete_bucket auth bn force st).1 = "Bucket " ++ q bn ++ " has been deleted." ∧
        (delete_bucket auth bn force st).2.2 =
          [StoreOp.getBucket bn, StoreOp.deleteBucket bn force])) := by
  constructor
  · intro hA
    constructor <;> simp [create_bucket, delete_bucket, hA]
  · intro hA
    constructor
    · intro hb
      simp [create_bucket, hA, hb]
    · intro m hm hfe
      rcases hfe with hf | he
      · constructor <;> simp [delete_bucket, hA, hm, hf]
      · subst he
        constructor <;> simp [delete_bucket, hA, hm]

/-- C5 witness: the role check at concrete inputs — an anonymous call is
denied with no store call; an admin call creates the bucket and deletes a
non-empty bucket with `force`. -/
theorem c5_admin_role_check_witness :
    create_bucket none "b" [] = (adminDeniedMsg, [], []) ∧
    create_bucket (some ⟨"a", "agent-admin"⟩) "b" [] =
      ("Successfully created bucket " ++ q "b" ++ ".", [("b", [])],
       [StoreOp.createBucket "b"]) ∧
    (delete_bucket (some ⟨"a", "agent-admin"⟩) "b" true [("b", [("x", [1])])]).1 =
      "Bucket " ++ q "b" ++ " has been deleted." :=
  ⟨((c5_admin_role_check none "b" true []).1 rfl).1,
   ((c5_admin_role_check (some ⟨"a", "agent-admin"⟩) "b" true []).2 rfl).1 rfl,
   (((c5_admin_role_check (some ⟨"a", "agent-admin"⟩) "b" true [("b", [("x", [1])])]).2 rfl).2
     [("x", [1])] rfl (Or.inl rfl)).1⟩

/-- C6: `read_gcs_file` signals failure by raising — whenever the
sandboxed object does not exist (including a missing bucket) it produces
an `Except.error` rather than a descriptive string, and on success it
returns the object's content base64-encoded. -/
theorem c6_read_raises (auth : Option AuthInfo) (bn p : String) (st : GcsState) :
    (objectAt st bn (sandbox auth p) = none →
      ∃ e, read_gcs_file auth bn p st = Except.error e) ∧
    (∀ bytes, objectAt st bn (sandbox auth p) = some bytes →
      read_gcs_file auth bn p st = Except.ok (b64Str bytes)) := by
  constructor
  · intro hnone
    unfold read_gcs_file
    cases hb : lookupBucket st bn with
    | none => exact ⟨_, rfl⟩
    | some m =>
      cases ho : lookupObj m (sandbox auth p) with
      | none => simp [ho]
      | some bs =>
        exfalso
        rw [objectAt, hb] at hnone
        simp [ho] at hnone
  · intro bytes hsome
    rw [objectAt] at hsome
    unfold read_gcs_file
    cases hb : lookupBucket st bn with
    | none => rw [hb] at hsome; simp at hsome
    | some m =>
      rw [hb] at hsome
      simp only [Option.some_bind] at hsome
      simp [hsome]

/-- C6 witness: reading a missing object raises; reading an existing
object returns its base64-encoded content. -/
theorem c6_read_raises_witness :
    (∃ e, read_gcs_file (some ⟨"u", "agent"⟩) "b" "missing.txt" [("b", [])] = Except.error e) ∧
    read_gcs_file (some ⟨"u", "agent"⟩) "b" "f" [("b", [("u/f", [104, 105])])] =
      Except.ok (b64Str [104, 105]) :=
  ⟨(c6_read_raises (some ⟨"u", "agent"⟩) "b" "missing.txt" [("b", [])]).1 rfl,
   (c6_read_raises (some ⟨"u", "agent"⟩) "b" "f" [("b", [("u/f", [104, 105])])]).2
     [104, 105] rfl⟩

/-- C7: `list_gcs_objects` answers a failed bucket lookup with a JSON
object carrying an `error` field, and every successful invocation with a
JSON array. -/
theorem c7_list_result_shape (auth : Option AuthInfo) (bn p : String) (st : GcsState) :
    (lookupBucket st bn = none →
      list_gcs_objects auth bn p st = Json.obj [("error", bucketNotFoundStr bn)]) ∧
    (∀ m, lookupBucket st bn = some m →
      ∃ items, list_gcs_objects auth bn p st = Json.arr items) := by
  constructor
  · intro hb
    simp [list_gcs_objects, hb]
  · intro m hb
    simp only [list_gcs_objects, hb]
    exact ⟨_, rfl⟩

/-- C7 witness: the error shape on a missing bucket and the array shape on
an existing one. -/
theorem c7_list_result_shape_witness :
    list_gcs_objects none "nope" "" [] = Json.obj [("error", bucketNotFoundStr "nope")] ∧
    ∃ items, list_gcs_objects none "b" "" [("b", [("x", [1])])] = Json.arr items :=
  ⟨(c7_list_result_shape none "nope" "" []).1 rfl,
   (c7_list_result_shape none "b" "" [("b", [("x", [1])])]).2 [("x", [1])] rfl⟩

/-- C8: when the destination path of `move_gcs_object` ends in `/`, the
final destination object name is the (sandboxed) destination path with
the source path's base name appended, and the handler issues a copy to
that destination followed — in that order — by a delete of the source. -/
theorem c8_move_directory_dest (auth : Option AuthInfo)
    (sb sp db dp : String) (st : GcsState) (sm dm : ObjMap) (bytes : List Nat)
    (hdir : endsWithB "/" dp = true)
    (hsb : lookupBucket st sb = some sm)
    (hobj : lookupObj sm (sandbox auth sp) = some bytes)
    (hdb : lookupBucket st db = some dm) :
    move_gcs_object auth sb sp db dp st =
      ("Successfully moved " ++ q sp ++ " to " ++ q dp ++ ".",
       storeDelete (storeUpload st db (sandbox auth dp ++ basename sp) bytes)
         sb (sandbox auth sp),
       [StoreOp.getBucket sb, StoreOp.existsBlob sb (sandbox auth sp),
        StoreOp.getBucket db,
        StoreOp.copyBlob sb (sandbox auth sp) db (sandbox auth dp ++ basename sp),
        StoreOp.deleteBlob sb (sandbox auth sp)]) := by
  simp [move_gcs_object, hsb, hobj, hdb, hdir]

/-- C8 witness: moving `d/f.txt` to the directory-style destination `e/`
copies to `e/f.txt` and then deletes the source. -/
theorem c8_move_directory_dest_witness :
    move_gcs_object none "b" "d/f.txt" "b" "e/" [("b", [("d/f.txt", [1])])] =
      ("Successfully moved " ++ q "d/f.txt" ++ " to " ++ q "e/" ++ ".",
       storeDelete (storeUpload [("b", [("d/f.txt", [1])])] "b" ("e/" ++ basename "d/f.txt") [1])
         "b" "d/f.txt",
       [StoreOp.getBucket "b", StoreOp.existsBlob "b" "d/f.txt", StoreOp.getBucket "b",
        StoreOp.copyBlob "b" "d/f.txt" "b" ("e/" ++ basename "d/f.txt"),
        StoreOp.deleteBlob "b" "d/f.txt"]) :=
  c8_move_directory_dest none "b" "d/f.txt" "b" "e/" [("b", [("d/f.txt", [1])])]
    [("d/f.txt", [1])] [("d/f.txt", [1])] [1] rfl rfl rfl rfl

/-- Appending-with-exclusion fold, rewritten as filter-then-map: the loop
`for b in blobs: if b.name != prefix: items.append(strip(b.name))`. -/
theorem foldl_strip_filter (f : String → String) (pre : String) (l : List String) :
    ∀ acc, List.foldl (fun acc n => if n = pre then acc else acc ++ [f n]) acc l =
      acc ++ (l.filter (fun n => !(n == pre))).map f := by
  induction l with
  | nil => intro acc; simp
  | cons x xs ih =>
    intro acc
    by_cases hx : x = pre
    · subst hx; simp [ih]
    · simp [List.filter_cons, hx, ih]

/-- Unconditional appending fold, rewritten as map: the loop
`for p in blobs.prefixes: items.append(strip(p))`. -/
theorem foldl_append_map (f : String → String) (l : List String) :
    ∀ acc, List.foldl (fun acc n => acc ++ [f n]) acc l = acc ++ l.map f := by
  induction l with
  | nil => intro acc; simp
  | cons x xs ih => intro acc; simp [ih]

/-- The effective query prefix of a listing: the sandboxed path, given a
trailing `/` when non-empty and not already directory-style. -/
def listPre (auth : Option AuthInfo) (p : String) : String :=
  if sandbox auth p != "" && !(endsWithB "/" (sandbox auth p)) then sandbox auth p ++ "/"
  else sandbox auth p

/-- C9: a successful `list_gcs_objects` returns exactly the object names
of the prefix+one-level-delimiter query plus the sibling subdirectory
prefixes, with the entry equal to the queried prefix (the directory
placeholder) excluded and the sandbox prefix stripped from every name. -/
theorem c9_list_exact (auth : Option AuthInfo) (bn p : String) (st : GcsState)
    (m : ObjMap) (hb : lookupBucket st bn = some m) :
    list_gcs_objects auth bn p st =
      Json.arr
        ((((gcsList (m.map (·.1)) (listPre auth p)).1.filter
            (fun n => !(n == listPre auth p))).map (removePre (stripOf auth))) ++
         (gcsList (m.map (·.1)) (listPre auth p)).2.map (removePre (stripOf auth))) := by
  simp only [list_gcs_objects, hb, listPre]
  rw [foldl_strip_filter, foldl_append_map, List.nil_append]

/-- C9 witness: listing the sandboxed root of a bucket with one file and
one subdirectory yields exactly the stripped file name and the stripped
subdirectory, the placeholder excluded. -/
theorem c9_list_exact_witness :
    list_gcs_objects (some ⟨"u", "agent"⟩) "b" ""
      [("b", [("u/f.txt", [1]), ("u/d/g.txt", [2]), ("u/d/h.txt", [3])])] =
      Json.arr ["f.txt", "d/"] := by
  have h := c9_list_exact (some ⟨"u", "agent"⟩) "b" ""
    [("b", [("u/f.txt", [1]), ("u/d/g.txt", [2]), ("u/d/h.txt", [3])])]
    [("u/f.txt", [1]), ("u/d/g.txt", [2]), ("u/d/h.txt", [3])] rfl
  exact h.trans rfl

/-- Result strings `upload_file` can produce: a function of the caller
inputs only, with no identity argument, so the sandboxed storage path
never appears. -/
def uploadMsgs (bn p : String) : List String :=
  ["File " ++ q p ++ " successfully uploaded to bucket " ++ q bn ++ ".",
   "Error: Bucket " ++ q bn ++ " not found.",
   "An error occurred: Invalid base64-encoded string"]

/-- Result strings `delete_gcs_object` can produce, from caller inputs
only. -/
def deleteMsgs (bn p : String) : List String :=
  ["Directory " ++ q p ++ " is already empty or does not exist.",
   "Successfully deleted directory " ++ q p ++ " and its contents.",
   "Error: File " ++ q p ++ " not found in bucket " ++ q bn ++ ".",
   "File " ++ q p ++ " successfully deleted.",
   "Error: Bucket " ++ q bn ++ " not found."]

/-- Result strings `move_gcs_object` can produce, from caller inputs
only. -/
def moveMsgs (sp dp : String) : List String :=
  ["Successfully moved " ++ q sp ++ " to " ++ q dp ++ ".",
   "Error: Source file " ++ q sp ++ " not found.",
   "Error: One of the buckets was not found."]

/-- A successful `firstFault` result comes from one of the listed calls. -/
theorem firstFault_eq_some (fault : StoreFaults) :
    ∀ (l : List StoreOp) (e : StoreExc), firstFault fault l = some e →
      ∃ op, fault op = some e := by
  intro l
  induction l with
  | nil => intro e h; simp [firstFault] at h
  | cons op ops ih =>
    intro e h
    simp only [firstFault] at h
    cases hf : fault op with
    | some e2 =>
      rw [hf] at h
      simp at h
      exact ⟨op, by rw [hf, h]⟩
    | none =>
      rw [hf] at h
      simp at h
      exact ih e h

/-- Case analysis of `upload_fileF`: either a handler-authored message
built from the caller inputs, or the `except` mapping of some raised
store exception. -/
theorem upload_fileF_cases (fault : StoreFaults) (auth : Option AuthInfo)
    (bn p : String) (c : List Char) (st : GcsState) :
    upload_fileF fault auth bn p c st ∈ uploadMsgs bn p ∨
      ∃ op e, fault op = some e ∧ upload_fileF fault auth bn p c st = bucketExcMsg bn e := by
  cases h0 : fault (StoreOp.getBucket bn) with
  | some e => exact Or.inr ⟨_, e, h0, by simp [upload_fileF, h0]⟩
  | none =>
    cases hb : lookupBucket st bn with
    | none => exact Or.inl (by simp [upload_fileF, h0, hb, uploadMsgs])
    | some m =>
      cases hc : b64decode c with
      | none => exact Or.inl (by simp [upload_fileF, h0, hb, hc, uploadMsgs])
      | some bytes =>
        cases h1 : fault (StoreOp.uploadBlob bn (sandbox auth p)) with
        | some e => exact Or.inr ⟨_, e, h1, by simp [upload_fileF, h0, hb, hc, h1]⟩
        | none => exact Or.inl (by simp [upload_fileF, h0, hb, hc, h1, uploadMsgs])

/-- Case analysis of `read_gcs_fileF`: base64 success, one of the two
handler-authored errors, or a verbatim re-raised store exception. -/
theorem read_gcs_fileF_cases (fault : StoreFaults) (auth : Option AuthInfo)
    (bn p : String) (st : GcsState) :
    (∃ bytes, read_gcs_fileF fault auth bn p st = Except.ok (b64Str bytes)) ∨
      read_gcs_fileF fault auth bn p st = Except.error (ReadRaise.bucketNotFound bn) ∨
      read_gcs_fileF fault auth bn p st = Except.error (ReadRaise.fileNotFound
        ("File " ++ q p ++ " not found in bucket " ++ q bn ++ ".")) ∨
      ∃ op e, fault op = some e ∧
        read_gcs_fileF fault auth bn p st = Except.error (ReadRaise.storeRaised e.msg) := by
  cases h0 : fault (StoreOp.getBucket bn) with
  | some e => exact Or.inr (Or.inr (Or.inr ⟨_, e, h0, by simp [read_gcs_fileF, h0]⟩))
  | none =>
    cases hb : lookupBucket st bn with
    | none => exact Or.inr (Or.inl (by simp [read_gcs_fileF, h0, hb]))
    | some m =>
      cases h1 : fault (StoreOp.existsBlob bn (sandbox auth p)) with
      | some e =>
        exact Or.inr (Or.inr (Or.inr ⟨_, e, h1, by simp [read_gcs_fileF, h0, hb, h1]⟩))
      | none =>
        cases ho : lookupObj m (sandbox auth p) with
        | none => exact Or.inr (Or.inr (Or.inl (by simp [read_gcs_fileF, h0, hb, h1, ho])))
        | some bytes =>
          cases h2 : fault (StoreOp.downloadBlob bn (sandbox auth p)) with
          | some e =>
            exact Or.inr (Or.inr (Or.inr
              ⟨_, e, h2, by simp [read_gcs_fileF, h0, hb, h1, ho, h2]⟩))
          | none => exact Or.inl ⟨bytes, by simp [read_gcs_fileF, h0, hb, h1, ho, h2]⟩

/-- Case analysis of `delete_gcs_objectF`: either a handler-authored
message from the caller inputs, or the `except` mapping of some raised
store exception. -/
theorem delete_gcs_objectF_cases (fault : StoreFaults) (auth : Option AuthInfo)
    (bn p : String) (st : GcsState) :
    delete_gcs_objectF fault auth bn p st ∈ deleteMsgs bn p ∨
      ∃ op e, fault op = some e ∧ delete_gcs_objectF fault auth bn p st = bucketExcMsg bn e := by
  cases h0 : fault (StoreOp.getBucket bn) with
  | some e => exact Or.inr ⟨_, e, h0, by simp [delete_gcs_objectF, h0]⟩
  | none =>
    cases hb : lookupBucket st bn with
    | none => exact Or.inl (by simp [delete_gcs_objectF, h0, hb, deleteMsgs])
    | some m =>
      by_cases hdir : endsWithB "/" (sandbox auth p) = true
      · cases h1 : fault (StoreOp.listBlobs bn (sandbox auth p)) with
        | some e => exact Or.inr ⟨_, e, h1, by simp [delete_gcs_objectF, h0, hb, hdir, h1]⟩
        | none =>
          by_cases hempty :
              ((m.map (·.1)).filter (fun n => startsWithB (sandbox auth p) n)) = []
          · exact Or.inl (by simp [delete_gcs_objectF, h0, hb, hdir, h1, hempty, deleteMsgs])
          · cases hff : firstFault fault
                (((m.map (·.1)).filter (fun n => startsWithB (sandbox auth p) n)).map
                  (fun n => StoreOp.deleteBlob bn n)) with
            | some e =>
              obtain ⟨op, hop⟩ := firstFault_eq_some fault _ e hff
              exact Or.inr ⟨op, e, hop,
                by simp [delete_gcs_objectF, h0, hb, hdir, h1, hempty, hff]⟩
            | none =>
              exact Or.inl
                (by simp [delete_gcs_objectF, h0, hb, hdir, h1, hempty, hff, deleteMsgs])
      · cases h2 : fault (StoreOp.existsBlob bn (sandbox auth p)) with
        | some e => exact Or.inr ⟨_, e, h2, by simp [delete_gcs_objectF, h0, hb, hdir, h2]⟩
        | none =>
          cases ho : lookupObj m (sandbox auth p) with
          | none => exact Or.inl (by simp [delete_gcs_objectF, h0, hb, hdir, h2, ho, deleteMsgs])
          | some d =>
            cases h3 : fault (StoreOp.deleteBlob bn (sandbox auth p)) with
            | some e =>
              exact Or.inr ⟨_, e, h3, by simp [delete_gcs_objectF, h0, hb, hdir, h2, ho, h3]⟩
            | none =>
              exact Or.inl (by simp [delete_gcs_objectF, h0, hb, hdir, h2, ho, h3, deleteMsgs])

/-- Case analysis of `move_gcs_objectF`: either a handler-authored
message from the caller inputs, or the `except` mapping of some raised
store exception. -/
theorem move_gcs_objectF_cases (fault : StoreFaults) (auth : Option AuthInfo)
    (sb sp db dp : String) (st : GcsState) :
    move_gcs_objectF fault auth sb sp db dp st ∈ moveMsgs sp dp ∨
      ∃ op e, fault op = some e ∧ move_gcs_objectF fault auth sb sp db dp st = moveExcMsg e := by
  cases h0 : fault (StoreOp.getBucket sb) with
  | some e => exact Or.inr ⟨_, e, h0, by simp [move_gcs_objectF, h0]⟩
  | none =>
    cases hsb : lookupBucket st sb with
    | none => exact Or.inl (by simp [move_gcs_objectF, h0, hsb, moveMsgs])
    | some sm =>
      cases h1 : fault (StoreOp.existsBlob sb (sandbox auth sp)) with
      | some e => exact Or.inr ⟨_, e, h1, by simp [move_gcs_objectF, h0, hsb, h1]⟩
      | none =>
        cases ho : lookupObj sm (sandbox auth sp) with
        | none => exact Or.inl (by simp [move_gcs_objectF, h0, hsb, h1, ho, moveMsgs])
        | some d =>
          cases h2 : fault (StoreOp.getBucket db) with
          | some e => exact Or.inr ⟨_, e, h2, by simp [move_gcs_objectF, h0, hsb, h1, ho, h2]⟩
          | none =>
            cases hdb : lookupBucket st db with
            | none =>
              exact Or.inl (by simp [move_gcs_objectF, h0, hsb, h1, ho, h2, hdb, moveMsgs])
            | some dm =>
              cases h3 : fault (StoreOp.copyBlob sb (sandbox auth sp) db
                  (if endsWithB "/" dp then sandbox auth dp ++ basename sp
                   else sandbox auth dp)) with
              | some e =>
                exact Or.inr ⟨_, e, h3,
                  by simp [move_gcs_objectF, h0, hsb, h1, ho, h2, hdb, h3]⟩
              | none =>
                cases h4 : fault (StoreOp.deleteBlob sb (sandbox auth sp)) with
                | some e =>
                  exact Or.inr ⟨_, e, h4,
                    by simp [move_gcs_objectF, h0, hsb, h1, ho, h2, hdb, h3, h4]⟩
                | none =>
                  exact Or.inl
                    (by simp [move_gcs_objectF, h0, hsb, h1, ho, h2, hdb, h3, h4, moveMsgs])

/-- C10 counterexample: when the store raises on the download — the
object vanished between the `exists()` check and the download —
`read_gcs_file` re-raises the store exception verbatim, and its text
contains the sandboxed storage path `u/f.txt` rather than only the
caller-supplied `f.txt`; so it is false that no user-facing result ever
exposes the sandbox namespace. -/
theorem c10_counterexample :
    read_gcs_fileF demoFault (some { user_id := "u", role := "agent" }) "b" "f.txt"
        [("b", [("u/f.txt", [104, 105])])] =
      Except.error (ReadRaise.storeRaised demoNotFoundMsg) ∧
    containsSub (toStorage { user_id := "u", role := "agent" } "f.txt") demoNotFoundMsg = true ∧
    toStorage { user_id := "u", role := "agent" } "f.txt" ≠ "f.txt" := by
  refine ⟨rfl, by decide, by decide⟩

/-- C10 (amended): every result string of `upload_file`,
`delete_gcs_object` and `move_gcs_object` is either drawn from a family
built from the caller-supplied relative paths and bucket names alone —
into which the sandboxed storage path never flows — or is the `except`
mapping of a store-raised exception, whose verbatim `str(e)`
interpolation is the only way the sandbox namespace can surface;
`read_gcs_file` likewise yields its two handler-authored errors, the
base64 success, or a verbatim re-raised store exception; and
`list_gcs_objects` reports the bucket error or strips the sandbox prefix
from every returned entry (its listing call is outside the try block, so
a raising listing escapes at transport level and returns no string). -/
theorem c10_sandbox_leak_passthrough (fault : StoreFaults) (auth : Option AuthInfo)
    (bn p sp dp sb db : String) (c : List Char) (st : GcsState) :
    (upload_fileF fault auth bn p c st ∈ uploadMsgs bn p ∨
      ∃ op e, fault op = some e ∧ upload_fileF fault auth bn p c st = bucketExcMsg bn e) ∧
    ((∃ bytes, read_gcs_fileF fault auth bn p st = Except.ok (b64Str bytes)) ∨
      read_gcs_fileF fault auth bn p st = Except.error (ReadRaise.bucketNotFound bn) ∨
      read_gcs_fileF fault auth bn p st = Except.error (ReadRaise.fileNotFound
        ("File " ++ q p ++ " not found in bucket " ++ q bn ++ ".")) ∨
      ∃ op e, fault op = some e ∧
        read_gcs_fileF fault auth bn p st = Except.error (ReadRaise.storeRaised e.msg)) ∧
    (delete_gcs_objectF fault auth bn p st ∈ deleteMsgs bn p ∨
      ∃ op e, fault op = some e ∧ delete_gcs_objectF fault auth bn p st = bucketExcMsg bn e) ∧
    (move_gcs_objectF fault auth sb sp db dp st ∈ moveMsgs sp dp ∨
      ∃ op e, fault op = some e ∧
        move_gcs_objectF fault auth sb sp db dp st = moveExcMsg e) ∧
    (list_gcs_objects auth bn p st = Json.obj [("error", bucketNotFoundStr bn)] ∨
      ∃ raw : List String, list_gcs_objects auth bn p st =
        Json.arr (raw.map (removePre (stripOf auth)))) := by
  refine ⟨upload_fileF_cases fault auth bn p c st,
          read_gcs_fileF_cases fault auth bn p st,
          delete_gcs_objectF_cases fault auth bn p st,
          move_gcs_objectF_cases fault auth sb sp db dp st,
          ?_⟩
  cases hb : lookupBucket st bn with
  | none => exact Or.inl (by simp [list_gcs_objects, hb])
  | some m =>
    refine Or.inr ?_
    simp only [list_gcs_objects, hb]
    rw [foldl_strip_filter, foldl_append_map, List.nil_append, ← List.map_append]
    exact ⟨_, rfl⟩

end GcsMcp
